import Mathlib

/-!
# Verification of `composer/loggers/file_logger.py` (`FileLogger`)

Shallow embedding of the `FileLogger` class: the level filter, the line
formatter, the pending buffer + file sink state machine, the flush/publish
cycle and the stdout/stderr capture wrapper.  Mutable attributes of the
Python object become fields of a `FileLogger` structure; methods become
functions from (and to) that structure.  The filesystem is an explicit
association list from paths to contents; errors raised by a method are
returned as an `error` field of the result (set alongside whatever
mutations had already happened before the raise, mirroring Python
exception semantics).
-/

namespace FileLoggerSpec

/-- Modelled from the spec: `LogLevel` lives in `composer.loggers.logger`,
outside the provided sources.  Per §3 it is an ordered enumeration
FIT < EPOCH < BATCH (coarse to fine). -/
inductive LogLevel
  | FIT
  | EPOCH
  | BATCH
  deriving DecidableEq, Repr

/-- Modelled from the spec: the numeric rank giving the total order on
`LogLevel` (FIT coarsest, BATCH finest). -/
def LogLevel.rank : LogLevel → Nat
  | .FIT => 0
  | .EPOCH => 1
  | .BATCH => 2

/-- Modelled from the spec: the strict order `<` on `LogLevel`, as a Bool
(Python enum comparison). -/
def LogLevel.blt (a b : LogLevel) : Bool := a.rank < b.rank

/-- The argument actually passed to `_will_log` at runtime: either one of
the three known levels, or any other value (Python is untyped; an unknown
value reaches the final `raise ValueError`). -/
inductive LogLevelArg
  | known : LogLevel → LogLevelArg
  | unknown : Nat → LogLevelArg
  deriving DecidableEq, Repr

/-- The identity supplied by the external `dist` collaborator
(`composer.utils.dist`): global rank, local rank, world size, local world
size, node rank. -/
structure Identity where
  rank : Nat
  local_rank : Nat
  world_size : Nat
  local_world_size : Nat
  node_rank : Nat
  deriving DecidableEq, Repr

/-- One piece of a Python format string such as
`"\x7brun_name\x7d/logs-rank\x7brank\x7d.txt"`: either literal text or one
of the six recognized substitution variables (spec §6). -/
inductive FmtPart
  | lit : String → FmtPart
  | run_name
  | rank
  | local_rank
  | world_size
  | local_world_size
  | node_rank
  deriving DecidableEq, Repr

/-- `str.format` for one part: substitute the variable's value. -/
def FmtPart.resolve (id : Identity) (rn : String) : FmtPart → String
  | .lit s => s
  | .run_name => rn
  | .rank => toString id.rank
  | .local_rank => toString id.local_rank
  | .world_size => toString id.world_size
  | .local_world_size => toString id.local_world_size
  | .node_rank => toString id.node_rank

/-- A format-string template is a sequence of parts. -/
abbrev FmtString := List FmtPart

/-- `template.format(rank=..., ..., run_name=...)`: resolve every part and
concatenate. -/
def FmtString.format (t : FmtString) (id : Identity) (rn : String) : String :=
  String.join (t.map (FmtPart.resolve id rn))

/-- `os.path.sep` on the POSIX platform the source runs on. -/
def os_path_sep : Char := '/'

/-- `filename_format.replace(os.path.sep, '/')` (line 153 of the source):
the separator replacement acts on the raw template text, i.e. on the
literal parts. -/
def FmtString.replaceSep (t : FmtString) : FmtString :=
  t.map fun p =>
    match p with
    | .lit s => .lit (String.map (fun c => if c = os_path_sep then '/' else c) s)
    | p => p

/-- `os.linesep` on the POSIX platform the source runs on. -/
def os_linesep : String := "\n"

/-- Is `c` one of the characters `str.splitlines` breaks lines at
(LF, CR, VT, FF, FS, GS, RS, NEL, LINE SEPARATOR, PARAGRAPH SEPARATOR)? -/
def isLineBreak (c : Char) : Bool :=
  c = '\n' || c = '\r' || c = '\x0B' || c = '\x0C' ||
  c = '\x1C' || c = '\x1D' || c = '\x1E' || c = '\x85' ||
  c = ' ' || c = ' '

/-- `s.splitlines(True)` over a character list: split at each line break,
keeping the break with its segment; `"\r\n"` counts as a single break.
`acc` holds the (reversed) characters of the segment being built. -/
def splitlinesKeep (acc : List Char) : List Char → List (List Char)
  | [] => if acc.isEmpty then [] else [acc.reverse]
  | c :: rest =>
      if isLineBreak c then
        match rest with
        | c2 :: rest2 =>
            if c = '\r' && c2 = '\n' then
              (acc.reverse ++ [c, c2]) :: splitlinesKeep [] rest2
            else (acc.reverse ++ [c]) :: splitlinesKeep [] (c2 :: rest2)
        | [] => (acc.reverse ++ [c]) :: splitlinesKeep [] []
      else splitlinesKeep (c :: acc) rest

/-- The per-segment step of `FileLogger.write` (lines 289–294): a segment
that is exactly `os.linesep` is kept unprefixed, every other segment gets
the prefix prepended. -/
def formatLine (pre : String) (seg : List Char) : List Char :=
  if seg = os_linesep.data then seg else pre.data ++ seg

/-- The formatting stage of `FileLogger.write` (lines 288–295): split
`s` with `splitlines(True)`, prefix each segment that is not a bare
`os.linesep`, and join. -/
def formatLines (pre s : String) : String :=
  String.mk (List.flatten ((splitlinesKeep [] s.data).map (formatLine pre)))

/-- Removing an inserted prefix from one formatted segment: a segment that
is exactly `os.linesep` was emitted unprefixed and is kept; any other
formatted segment had the prefix prepended, which is dropped again. -/
def stripInserted (pre : String) (seg : List Char) : List Char :=
  if seg = os_linesep.data then seg else seg.drop pre.length

/-- An open file handle: the bound path and the chunks written so far. -/
structure FileHandle where
  name : String
  content : List String
  deriving DecidableEq, Repr

/-- The mutable state of a `FileLogger` instance (its `__init__`-assigned
attributes, lines 151–166; stream-capture globals are modelled separately
with `new_write`). -/
structure FileLogger where
  filename_format : FmtString
  artifact_name_format : FmtString
  buffer_size : Int
  log_level : LogLevel
  log_interval : Nat
  flush_interval : Nat
  is_batch_interval : Bool
  is_epoch_interval : Bool
  file : Option FileHandle
  config : Option String
  _queue : List String
  _run_name : Option String
  deriving DecidableEq, Repr

/-- `FileLogger.__init__` (lines 137–166).  `config` stands for the
serialized `yaml.safe_dump` text of the config blob (the YAML library is
an external collaborator). -/
def mkFileLogger (filename_format : FmtString) (artifact_name_format : Option FmtString)
    (buffer_size : Int := 1) (log_level : LogLevel := .EPOCH)
    (log_interval : Nat := 1) (flush_interval : Nat := 100)
    (config : Option String := none) : FileLogger :=
  { filename_format := filename_format
    artifact_name_format :=
      match artifact_name_format with
      | none => filename_format.replaceSep
      | some a => a
    buffer_size := buffer_size
    log_level := log_level
    log_interval := log_interval
    flush_interval := flush_interval
    is_batch_interval := false
    is_epoch_interval := false
    file := none
    config := config
    _queue := []
    _run_name := none }

/-- The `filename` property (lines 183–197): raises if the run name is
unset, otherwise resolves `filename_format`. -/
def filename (l : FileLogger) (id : Identity) : Except String String :=
  match l._run_name with
  | none => .error "The run name is not set. The engine should have been set on Event.INIT"
  | some rn => .ok (l.filename_format.format id rn)

/-- The `artifact_name` property (lines 199–215).  Note the source
resolves `self.filename_format` (not `artifact_name_format`) and computes
`name.lstrip("/")` without using the result (strings are immutable), so
the returned name keeps its leading slashes. -/
def artifact_name (l : FileLogger) (id : Identity) : Except String String :=
  match l._run_name with
  | none => .error "The run name is not set. The engine should have been set on Event.INIT"
  | some rn =>
      let name := l.filename_format.format id rn
      let _ := String.mk (name.data.dropWhile (fun c => c = '/'))
      .ok name

/-- Modelled from the spec: the artifact name as §6 and the class
docstring describe it — the resolved `artifact_name_format` template (the
separator-normalized one) with leading `/` stripped. -/
def artifact_name_spec (l : FileLogger) (id : Identity) : Except String String :=
  match l._run_name with
  | none => .error "The run name is not set. The engine should have been set on Event.INIT"
  | some rn => .ok (String.mk ((l.artifact_name_format.format id rn).data.dropWhile (fun c => c = '/')))

/-- `FileLogger._will_log` (lines 225–240). -/
def _will_log (l : FileLogger) (log_level : LogLevelArg) : Except String Bool :=
  if log_level = .known .FIT then .ok true
  else if log_level = .known .EPOCH then
    if LogLevel.blt l.log_level .EPOCH then .ok false
    else if LogLevel.blt .EPOCH l.log_level then .ok true
    else .ok l.is_epoch_interval
  else if log_level = .known .BATCH then
    if LogLevel.blt l.log_level .BATCH then .ok false
    else if LogLevel.blt .BATCH l.log_level then .ok true
    else .ok l.is_batch_interval
  else .error "Unknown log level"

/-- `FileLogger.write` (lines 276–302): format, then enqueue if no file is
open, else flush the queue into the file and append the formatted string. -/
def write (l : FileLogger) (pre s : String) : FileLogger :=
  let formatted_s := formatLines pre s
  match l.file with
  | none => { l with _queue := l._queue ++ [formatted_s] }
  | some h =>
      { l with
        _queue := []
        file := some { h with content := (h.content ++ l._queue) ++ [formatted_s] } }

/-- `FileLogger._flush_queue` (lines 304–310): drain the queue into the
open file in FIFO order.  (Its callers only invoke it with an open file.) -/
def _flush_queue (l : FileLogger) : FileLogger :=
  match l.file with
  | none => l
  | some h => { l with _queue := [], file := some { h with content := h.content ++ l._queue } }

/-- The filesystem: an association list from paths to file contents. -/
abbrev FS := List (String × String)

/-- Lookup of a path in the filesystem. -/
def FS.lookup (fs : FS) (p : String) : Option String :=
  match fs with
  | [] => none
  | (q, c) :: rest => if q = p then some c else FS.lookup rest p

/-- Result of `init`: the logger state after the call (including mutations
made before an exception), the filesystem, and the raised error if any. -/
structure InitResult where
  logger : FileLogger
  fs : FS
  error : Option String
  deriving DecidableEq, Repr

/-- The separator line `"-" * 30` used around the config block. -/
def dashes : String := String.mk (List.replicate 30 '-')

/-- `FileLogger.init` (lines 251–260): record the run name, refuse a
second open, create the file exclusively (`open(..., "x+")` raises
`FileExistsError` when the path exists and never touches the existing
file), drain the queue, then write the config block if present. -/
def init (l : FileLogger) (fs : FS) (id : Identity) (run_name : String) : InitResult :=
  let l := { l with _run_name := some run_name }
  if l.file.isSome then
    { logger := l, fs := fs, error := some "The file logger is already initialized" }
  else
    match filename l id with
    | .error e => { logger := l, fs := fs, error := some e }
    | .ok path =>
        if (FS.lookup fs path).isSome then
          { logger := l, fs := fs, error := some ("FileExistsError: " ++ path) }
        else
          let l := { l with file := some { name := path, content := [] } }
          let l := _flush_queue l
          let fs := (path, "") :: fs
          match l.config with
          | none => { logger := l, fs := fs, error := none }
          | some y =>
              let data := dashes ++ "\n" ++ y ++ "\n" ++ dashes ++ "\n"
              { logger := write l "[config]: " data, fs := fs, error := none }

/-- A `logger.file_artifact(...)` notification to the external artifact
store (line 319). -/
structure Publish where
  artifact_name : String
  filepath : String
  overwrite : Bool
  deriving DecidableEq, Repr

/-- Result of a lifecycle step: the logger state afterwards, the artifact
publications it emitted, and the raised error if any. -/
structure StepResult where
  logger : FileLogger
  published : List Publish
  error : Option String
  deriving DecidableEq, Repr

/-- `FileLogger._flush_file` (lines 312–319): assert the file is open,
drain the queue, flush + fsync (no observable effect in this model), then
publish the file under `artifact_name` with overwrite allowed. -/
def _flush_file (l : FileLogger) (id : Identity) : StepResult :=
  match l.file with
  | none => { logger := l, published := [], error := some "AssertionError: self.file is not None" }
  | some h =>
      let l := _flush_queue l
      match artifact_name l id with
      | .error e => { logger := l, published := [], error := some e }
      | .ok aname =>
          { logger := l
            published := [{ artifact_name := aname, filepath := h.name, overwrite := true }]
            error := none }

/-- `FileLogger.batch_start` (lines 217–218). -/
def batch_start (l : FileLogger) (batch : Nat) : FileLogger :=
  { l with is_batch_interval := (batch + 1) % l.log_interval == 0 }

/-- `FileLogger.epoch_start` (lines 220–223): recompute the epoch flag,
then flush the file. -/
def epoch_start (l : FileLogger) (epoch : Nat) (id : Identity) : StepResult :=
  _flush_file { l with is_epoch_interval := (epoch + 1) % l.log_interval == 0 } id

/-- `FileLogger.eval_start` (lines 267–269). -/
def eval_start (l : FileLogger) (id : Identity) : StepResult :=
  _flush_file l id

/-- `FileLogger.batch_end` (lines 262–265): assert the file is open, then
flush iff the level is BATCH and the batch counter is a multiple of the
flush interval. -/
def batch_end (l : FileLogger) (batch : Nat) (id : Identity) : StepResult :=
  if l.file.isNone then
    { logger := l, published := [], error := some "AssertionError: self.file is not None" }
  else if l.log_level = .BATCH && batch % l.flush_interval == 0 then
    _flush_file l id
  else
    { logger := l, published := [], error := none }

/-- `FileLogger.epoch_end` (lines 271–274): flush iff the level is finer
than EPOCH, or is EPOCH and the epoch counter is a multiple of the flush
interval. -/
def epoch_end (l : FileLogger) (epoch : Nat) (id : Identity) : StepResult :=
  if LogLevel.blt .EPOCH l.log_level ||
      (l.log_level = .EPOCH && epoch % l.flush_interval == 0) then
    _flush_file l id
  else
    { logger := l, published := [], error := none }

/-- `FileLogger.close` (lines 321–329): no-op when no file is open;
otherwise restore the captured writers (process-global state, outside this
state record), flush the file, close the handle and clear `file` and
`_run_name`. -/
def close (l : FileLogger) (id : Identity) : StepResult :=
  match l.file with
  | none => { logger := l, published := [], error := none }
  | some _ =>
      let r := _flush_file l id
      match r.error with
      | some _ => r
      | none => { r with logger := { r.logger with file := none, _run_name := none } }

/-- `FileLogger._get_new_writer`'s `new_write` (lines 174–181): the
installed wrapper for a captured channel.  `original_writer` is the saved
original write entry point, modelled as a function on an abstract channel
state `σ` returning the channel's new state and the original return
value. -/
def new_write {σ : Type} (l : FileLogger) (pre : String)
    (original_writer : σ → String → σ × Int) (s : String) (chan : σ) :
    FileLogger × σ × Int :=
  let l' := write l pre s
  let (chan', r) := original_writer chan s
  (l', chan', r)

/-- Run a list of `write (prefix, text)` calls in order. -/
def runWrites (l : FileLogger) (ws : List (String × String)) : FileLogger :=
  ws.foldl (fun l pw => write l pw.1 pw.2) l

/-- The content of the open file as one string, if a file is open. -/
def fileContent (l : FileLogger) : Option String :=
  l.file.map fun h => String.join h.content

/-- The identity of a single-process run: rank 0, world size 1. -/
def demoId : Identity := ⟨0, 0, 1, 1, 0⟩

/-- The default filename template
`"\x7brun_name\x7d/logs-rank\x7brank\x7d.txt"` from the source. -/
def demoTmpl : FmtString := [.run_name, .lit ("/logs-rank"), .rank, .lit (".txt")]

/-- A logger whose `filename_format` is the absolute path template
`"/tmp/logs-rank\x7brank\x7d.txt"` and whose `artifact_name_format` is
explicitly `"artifacts/logs-rank\x7brank\x7d.txt"`, after the run name was
recorded. -/
def c3Logger : FileLogger :=
  { mkFileLogger [.lit ("/tmp/logs-rank"), .rank, .lit (".txt")]
      (some [.lit ("artifacts/logs-rank"), .rank, .lit (".txt")]) with
    _run_name := some ("run1") }

/-! ## Theorems -/

/-- Concatenating the segments of `splitlines(True)` (with a pending
accumulator) reproduces the input: the splitter retains every line
terminator with its segment. -/
theorem splitlinesKeep_flatten (acc l : List Char) :
    (splitlinesKeep acc l).flatten = acc.reverse ++ l := by
  induction acc, l using splitlinesKeep.induct with
  | case1 acc h => simp_all [splitlinesKeep, List.isEmpty_iff]
  | case2 acc h => simp_all [splitlinesKeep]
  | case3 acc c h1 c2 rest2 h2 ih =>
      rw [splitlinesKeep.eq_def]
      simp_all
  | case4 acc c h1 c2 rest2 h2 ih =>
      rw [splitlinesKeep.eq_def]
      simp_all
      rw [if_neg (show ¬(c = '\x0d' ∧ c2 = '\n') from fun hh => h2 hh.1 hh.2)]
      simp [ih]
  | case5 acc c h ih =>
      rw [splitlinesKeep.eq_def]
      simp_all [splitlinesKeep]
  | case6 acc c rest h ih =>
      rw [splitlinesKeep.eq_def]
      simp_all

/-- Every segment produced by the splitter is nonempty. -/
theorem splitlinesKeep_ne_nil (acc l : List Char) :
    ∀ seg ∈ splitlinesKeep acc l, seg ≠ [] := by
  induction acc, l using splitlinesKeep.induct with
  | case1 acc h => simp_all [splitlinesKeep, List.isEmpty_iff]
  | case2 acc h => simp_all [splitlinesKeep, List.isEmpty_iff]
  | case3 acc c h1 c2 rest2 h2 ih =>
      rw [splitlinesKeep.eq_def]
      simp_all
  | case4 acc c h1 c2 rest2 h2 ih =>
      rw [splitlinesKeep.eq_def]
      simp_all
      rw [if_neg (show ¬(c = '\x0d' ∧ c2 = '\n') from fun hh => h2 hh.1 hh.2)]
      simp_all
  | case5 acc c h ih =>
      rw [splitlinesKeep.eq_def]
      simp_all [splitlinesKeep]
  | case6 acc c rest h ih =>
      rw [splitlinesKeep.eq_def]
      simp_all

/-- Dropping the inserted prefix from a formatted nonempty segment gives
the segment back. -/
theorem stripInserted_formatLine (pre : String) (seg : List Char) (hne : seg ≠ []) :
    stripInserted pre (formatLine pre seg) = seg := by
  unfold formatLine stripInserted
  by_cases h : seg = os_linesep.data
  · simp [h]
  · simp only [h, if_false]
    have hne2 : ¬(pre.data ++ seg = os_linesep.data) := by
      intro happ
      rcases hd : pre.data with _ | ⟨a, as⟩
      · rw [hd] at happ; simp at happ; exact h happ
      · rw [hd] at happ
        simp [os_linesep] at happ
        exact hne happ.2.2
    simp only [hne2, if_false]
    have hl : pre.length = pre.data.length := rfl
    rw [hl, List.drop_left]


theorem write_file_none (l : FileLogger) (pre s : String) (hf : l.file = none) :
    write l pre s = { l with _queue := l._queue ++ [formatLines pre s] } := by
  simp [write, hf]

theorem write_file_some (l : FileLogger) (h : FileHandle) (pre s : String)
    (hf : l.file = some h) :
    write l pre s = { l with
      _queue := []
      file := some { h with content := (h.content ++ l._queue) ++ [formatLines pre s] } } := by
  simp [write, hf]

theorem runWrites_file_none (ws : List (String × String)) (l : FileLogger) (hf : l.file = none) :
    runWrites l ws
      = { l with _queue := l._queue ++ ws.map fun pw => formatLines pw.1 pw.2 } := by
  induction ws generalizing l with
  | nil => simp [runWrites]
  | cons pw ws ih =>
      have step : runWrites l (pw :: ws) = runWrites (write l pw.1 pw.2) ws := rfl
      rw [step, write_file_none l pw.1 pw.2 hf, ih { l with _queue := l._queue ++ [formatLines pw.1 pw.2] } hf]
      simp

theorem runWrites_file_some (ws : List (String × String)) (l : FileLogger) (h : FileHandle)
    (hf : l.file = some h) (hq : l._queue = []) :
    runWrites l ws
      = { l with file := some { h with
            content := h.content ++ ws.map fun pw => formatLines pw.1 pw.2 } } := by
  induction ws generalizing l h with
  | nil =>
      show l = _
      simp only [List.map_nil, List.append_nil]
      rw [← hf]
  | cons pw ws ih =>
      have step : runWrites l (pw :: ws) = runWrites (write l pw.1 pw.2) ws := rfl
      rw [step, write_file_some l h pw.1 pw.2 hf, hq]
      rw [ih _ { h with content := (h.content ++ []) ++ [formatLines pw.1 pw.2] } rfl rfl]
      simp

theorem init_success (l : FileLogger) (fs : FS) (id : Identity) (rn : String)
    (hf : l.file = none) (hc : l.config = none)
    (hp : FS.lookup fs (FmtString.format l.filename_format id rn) = none) :
    init l fs id rn = {
      logger := { l with
        _run_name := some rn
        file := some { name := FmtString.format l.filename_format id rn, content := l._queue }
        _queue := [] }
      fs := (FmtString.format l.filename_format id rn, "") :: fs
      error := none } := by
  unfold init filename
  simp [hf, hp, hc, _flush_queue]

theorem _flush_file_open (l : FileLogger) (h : FileHandle) (rn : String) (id : Identity)
    (hf : l.file = some h) (hr : l._run_name = some rn) :
    _flush_file l id = {
      logger := { l with
        _queue := []
        file := some { h with content := h.content ++ l._queue } }
      published := [{ artifact_name := FmtString.format l.filename_format id rn
                      filepath := h.name
                      overwrite := true }]
      error := none } := by
  unfold _flush_file _flush_queue artifact_name
  simp [hf, hr]

theorem close_open (l : FileLogger) (h : FileHandle) (rn : String) (id : Identity)
    (hf : l.file = some h) (hr : l._run_name = some rn) :
    close l id = {
      logger := { l with
        _queue := []
        file := none
        _run_name := none }
      published := [{ artifact_name := FmtString.format l.filename_format id rn
                      filepath := h.name
                      overwrite := true }]
      error := none } := by
  unfold close
  rw [hf]
  simp only
  rw [_flush_file_open l h rn id hf hr]


/-- Claim C1: the level filter `_will_log` always accepts FIT calls;
an EPOCH call is rejected when the configured level is FIT, accepted when
it is BATCH, and gated on the epoch-boundary flag when it is EPOCH; a
BATCH call is rejected when the configured level is FIT or EPOCH and gated
on the batch-boundary flag when it is BATCH; any unknown level value is an
invalid-argument error. -/
theorem will_log_matches_filter_table (l : FileLogger) (n : Nat) :
    _will_log l (.known .FIT) = .ok true ∧
    _will_log l (.known .EPOCH) =
      .ok (match l.log_level with
           | .FIT => false
           | .EPOCH => l.is_epoch_interval
           | .BATCH => true) ∧
    _will_log l (.known .BATCH) =
      .ok (match l.log_level with
           | .FIT => false
           | .EPOCH => false
           | .BATCH => l.is_batch_interval) ∧
    _will_log l (.unknown n) = .error "Unknown log level" := by
  refine ⟨rfl, ?_, ?_, ?_⟩ <;>
    cases hll : l.log_level <;>
      simp [_will_log, hll, LogLevel.blt, LogLevel.rank]

/-- Claim C5: after `epoch_start` with epoch counter `e`, the
epoch-boundary flag equals `(e + 1) % log_interval == 0`; after
`batch_start` with batch counter `b`, the batch-boundary flag equals
`(b + 1) % log_interval == 0`; both are recomputed from scratch at every
such event, whatever the previous flag value was. -/
theorem interval_flags_recomputed (l : FileLogger) (epoch batch : Nat) (id : Identity)
    (_hN : 0 < l.log_interval) :
    (epoch_start l epoch id).logger.is_epoch_interval
      = ((epoch + 1) % l.log_interval == 0) ∧
    (batch_start l batch).is_batch_interval
      = ((batch + 1) % l.log_interval == 0) := by
  constructor
  · unfold epoch_start _flush_file _flush_queue artifact_name
    cases hf : l.file <;> cases hr : l._run_name <;> simp [hf, hr]
  · rfl

theorem interval_flags_recomputed_witness :
    0 < (mkFileLogger demoTmpl none).log_interval ∧
    (epoch_start (mkFileLogger demoTmpl none) 3 demoId).logger.is_epoch_interval
      = ((3 + 1) % 1 == 0) :=
  ⟨by decide, (interval_flags_recomputed (mkFileLogger demoTmpl none) 3 0 demoId (by decide)).1⟩

/-- Claim C6: calling `init` on a logger that already holds an open file
handle raises the usage error and leaves the original handle and the
filesystem untouched. -/
theorem double_open_rejected (l : FileLogger) (h : FileHandle) (fs : FS) (id : Identity)
    (rn : String) (hf : l.file = some h) :
    (init l fs id rn).error = some "The file logger is already initialized" ∧
    (init l fs id rn).logger.file = some h ∧
    (init l fs id rn).fs = fs := by
  simp [init, hf]

theorem double_open_rejected_witness :
    (init { mkFileLogger demoTmpl none with file := some { name := "f.txt", content := [] } }
        [] demoId "run1").error = some "The file logger is already initialized" :=
  (double_open_rejected _ { name := "f.txt", content := [] } [] demoId "run1" rfl).1

/-- Claim C9: the wrapper installed on a captured output channel first
routes the original text through the logger's `write` with the channel's
tag, then forwards the unmodified text to the saved original write entry
point and returns that call's return value, leaving the channel's
observable behavior unchanged. -/
theorem capture_wrapper_preserves_channel {σ : Type} (l : FileLogger) (pre s : String)
    (original_writer : σ → String → σ × Int) (chan : σ) :
    new_write l pre original_writer s chan
      = (write l pre s, (original_writer chan s).1, (original_writer chan s).2) := rfl

/-- Claim C10: after `close` on a logger with an open file, the handle is
cleared, and a subsequent `write` does not fail: it appends the formatted
string to the pending queue exactly as before the file was ever opened. -/
theorem write_after_close_enqueues (l : FileLogger) (h : FileHandle) (rn : String)
    (id : Identity) (pre s : String) (hf : l.file = some h) (hr : l._run_name = some rn) :
    (close l id).logger.file = none ∧
    write (close l id).logger pre s
      = { (close l id).logger with
          _queue := (close l id).logger._queue ++ [formatLines pre s] } := by
  rw [close_open l h rn id hf hr]
  exact ⟨rfl, write_file_none _ pre s rfl⟩

theorem write_after_close_enqueues_witness :
    write (close { mkFileLogger demoTmpl none with
        file := some { name := "f.txt", content := [] }
        _run_name := some "run1" } demoId).logger "[a]: " "x\n"
      = { (close { mkFileLogger demoTmpl none with
            file := some { name := "f.txt", content := [] }
            _run_name := some "run1" } demoId).logger with
          _queue := ["[a]: x\n"] } :=
  ((write_after_close_enqueues _ { name := "f.txt", content := [] } "run1" demoId
    "[a]: " "x\n" rfl rfl).2).trans (by rfl)


/-- Claim C3: the published artifact name does NOT match the spec.  On the
logger whose `filename_format` is `"/tmp/logs-rank\x7brank\x7d.txt"` and
whose `artifact_name_format` is `"artifacts/logs-rank\x7brank\x7d.txt"`,
the code's `artifact_name` property resolves `filename_format` (not the
artifact template) and discards the result of `lstrip("/")`, returning
`"/tmp/logs-rank0.txt"`, while the documented behavior yields
`"artifacts/logs-rank0.txt"`. -/
theorem artifact_name_ignores_template_and_lstrip :
    artifact_name c3Logger demoId = .ok "/tmp/logs-rank0.txt" ∧
    artifact_name_spec c3Logger demoId = .ok "artifacts/logs-rank0.txt" ∧
    artifact_name c3Logger demoId ≠ artifact_name_spec c3Logger demoId := by
  refine ⟨rfl, rfl, ?_⟩
  intro h
  have h1 : artifact_name c3Logger demoId = Except.ok "/tmp/logs-rank0.txt" := rfl
  have h2 : artifact_name_spec c3Logger demoId = Except.ok "artifacts/logs-rank0.txt" := rfl
  rw [h1, h2] at h
  exact absurd (Except.ok.inj h) (by decide)

/-- Claim C4 counterexample: `"\r"` is a bare line terminator
(`splitlines` yields the single segment `"\r"`), yet the formatter emits
it WITH the prefix, because the source only exempts segments equal to
`os.linesep` (`"\n"`). -/
theorem format_bare_terminator_prefixed_counterexample :
    isLineBreak '\x0d' = true ∧
    splitlinesKeep [] ("\r".data) = ["\r".data] ∧
    formatLines "[stdout]: " "\r" = "[stdout]: \r" ∧
    formatLines "[stdout]: " "\r" ≠ "\r" := by
  decide

/-- Claim C4 as amended: the formatter splits the text at line terminators
retaining each terminator with its segment, emits a segment that is
exactly the platform line separator `os.linesep` (`"\n"`) unprefixed,
emits every other segment (including bare non-`"\n"` terminators such as
`"\r"`) as the prefix concatenated with the segment, and concatenates the
segments in order; concatenating the split segments reproduces the text,
and removing every inserted prefix from the formatted segments reproduces
the original text exactly. -/
theorem format_round_trip (pre s : String) :
    formatLines pre s
      = String.mk (((splitlinesKeep [] s.data).map fun seg =>
          if seg = os_linesep.data then seg else pre.data ++ seg).flatten) ∧
    String.mk (splitlinesKeep [] s.data).flatten = s ∧
    String.mk ((((splitlinesKeep [] s.data).map (formatLine pre)).map
        (stripInserted pre)).flatten) = s := by
  refine ⟨rfl, ?_, ?_⟩
  · rw [splitlinesKeep_flatten]
    rfl
  · have hmap : ∀ seg ∈ splitlinesKeep [] s.data,
        (stripInserted pre ∘ formatLine pre) seg = id seg := fun seg hs =>
      stripInserted_formatLine pre seg (splitlinesKeep_ne_nil [] s.data seg hs)
    rw [List.map_map, List.map_congr_left hmap, List.map_id, splitlinesKeep_flatten]
    rfl

/-- Claim C2: writes issued while no file is open are buffered in FIFO
order; `init` drains the buffer into the file; later writes drain the
(now empty) buffer and append, so the file holds exactly the formatted
strings of all writes in issue order.  The second and third conjuncts are
the spec's concrete scenario: after `write("[a]: ", "x\ny\n")` the buffer
holds the single formatted string, and after open and
`write("[b]: ", "z\n")` the file reads
`"[a]: x\n[a]: y\n[b]: z\n"`. -/
theorem buffered_then_direct_ordering :
    (∀ (fmt : FmtString) (lvl : LogLevel) (li fi : Nat) (ws1 ws2 : List (String × String))
        (fs : FS) (id : Identity) (rn : String),
      FS.lookup fs (FmtString.format fmt id rn) = none →
      (runWrites (init (runWrites (mkFileLogger fmt none 1 lvl li fi none) ws1)
          fs id rn).logger ws2).file
        = some { name := FmtString.format fmt id rn
                 content := (ws1 ++ ws2).map fun pw => formatLines pw.1 pw.2 }) ∧
    (write (mkFileLogger demoTmpl none) "[a]: " "x\ny\n")._queue
      = ["[a]: x\n[a]: y\n"] ∧
    fileContent (write (init (write (mkFileLogger demoTmpl none) "[a]: " "x\ny\n")
        [] demoId "run1").logger "[b]: " "z\n")
      = some "[a]: x\n[a]: y\n[b]: z\n" := by
  refine ⟨?_, by decide, by decide⟩
  intro fmt lvl li fi ws1 ws2 fs id rn hp
  rw [runWrites_file_none ws1 (mkFileLogger fmt none 1 lvl li fi none) rfl]
  rw [init_success _ fs id rn rfl rfl hp]
  rw [runWrites_file_some ws2 _
      { name := FmtString.format fmt id rn
        content := [] ++ ws1.map fun pw => formatLines pw.1 pw.2 } rfl rfl]
  simp

theorem buffered_then_direct_ordering_witness :
    FS.lookup [] (FmtString.format demoTmpl demoId "run1") = none ∧
    (runWrites (init (runWrites (mkFileLogger demoTmpl none 1 .EPOCH 1 100 none)
        [("[a]: ", "x\ny\n")]) [] demoId "run1").logger [("[b]: ", "z\n")]).file
      = some { name := "run1/logs-rank0.txt"
               content := ["[a]: x\n[a]: y\n", "[b]: z\n"] } :=
  ⟨rfl, (buffered_then_direct_ordering.1 demoTmpl .EPOCH 1 100 [("[a]: ", "x\ny\n")]
      [("[b]: ", "z\n")] [] demoId "run1" rfl).trans (by decide)⟩


/-- Claim C7: when no file is open, `init` with a path that already exists
in the filesystem fails with the already-exists error, leaves the
filesystem unchanged and binds no handle; with a fresh path it succeeds,
creates the file (empty on disk) and binds it as the current handle. -/
theorem exclusive_create (l : FileLogger) (fs : FS) (id : Identity) (rn : String)
    (hf : l.file = none) :
    ((FS.lookup fs (FmtString.format l.filename_format id rn)).isSome →
      (init l fs id rn).error
          = some ("FileExistsError: " ++ FmtString.format l.filename_format id rn) ∧
        (init l fs id rn).fs = fs ∧
        (init l fs id rn).logger.file = none) ∧
    (FS.lookup fs (FmtString.format l.filename_format id rn) = none →
      (init l fs id rn).error = none ∧
        (init l fs id rn).logger.file.map FileHandle.name
          = some (FmtString.format l.filename_format id rn) ∧
        FS.lookup (init l fs id rn).fs (FmtString.format l.filename_format id rn)
          = some "") := by
  constructor
  · intro hp
    unfold init filename
    simp [hf, hp]
  · intro hp
    unfold init filename
    simp only [hf, Option.isSome_none, Bool.false_eq_true, if_false, hp, Option.isSome_some]
    cases hc : l.config with
    | none => simp [_flush_queue, FS.lookup]
    | some y =>
        simp [_flush_queue, FS.lookup, write]

theorem exclusive_create_witness :
    ((mkFileLogger demoTmpl none).file = none ∧
      FS.lookup [("run1/logs-rank0.txt", "old")] (FmtString.format demoTmpl demoId "run1")
        = some "old") ∧
    (init (mkFileLogger demoTmpl none) [("run1/logs-rank0.txt", "old")] demoId "run1").error
      = some ("FileExistsError: " ++ FmtString.format demoTmpl demoId "run1") ∧
    (init (mkFileLogger demoTmpl none) [("run1/logs-rank0.txt", "old")] demoId "run1").fs
      = [("run1/logs-rank0.txt", "old")] ∧
    (init (mkFileLogger demoTmpl none) [("run1/logs-rank0.txt", "old")] demoId "run1").logger.file
      = none :=
  ⟨⟨rfl, by decide⟩,
    (exclusive_create (mkFileLogger demoTmpl none) [("run1/logs-rank0.txt", "old")]
      demoId "run1" rfl).1 (by decide)⟩

/-- Claim C8: the flush/publish cycle fires exactly per policy, for a
logger with an open file and a recorded run name: unconditionally at
`epoch_start` and `eval_start`; at `epoch_end` exactly when the
granularity is finer than EPOCH (that is, BATCH) or it is EPOCH and the
epoch counter is a multiple of the flush interval; at `batch_end` exactly
when the granularity is BATCH and the batch counter is a multiple of the
flush interval; and at `close` exactly when a file is open. -/
theorem flush_publish_policy (l : FileLogger) (h : FileHandle) (rn : String) (id : Identity)
    (bctr ectr : Nat) (hf : l.file = some h) (hr : l._run_name = some rn)
    (_hN : 0 < l.log_interval) (_hF : 0 < l.flush_interval) :
    (epoch_start l ectr id).published.length = 1 ∧
    (eval_start l id).published.length = 1 ∧
    (epoch_end l ectr id).published.length
      = (if l.log_level = .BATCH ∨ (l.log_level = .EPOCH ∧ l.flush_interval ∣ ectr)
         then 1 else 0) ∧
    (batch_end l bctr id).published.length
      = (if l.log_level = .BATCH ∧ l.flush_interval ∣ bctr then 1 else 0) ∧
    (close l id).published.length = 1 ∧
    (close { l with file := none } id).published = [] := by
  have hmod : ∀ n : Nat, (n % l.flush_interval == 0) = true ↔ l.flush_interval ∣ n := by
    intro n
    rw [beq_iff_eq]
    exact Iff.symm Nat.dvd_iff_mod_eq_zero
  refine ⟨?_, ?_, ?_, ?_, ?_, ?_⟩
  · unfold epoch_start
    rw [_flush_file_open { l with is_epoch_interval := (ectr + 1) % l.log_interval == 0 }
        h rn id hf hr]
    rfl
  · unfold eval_start
    rw [_flush_file_open l h rn id hf hr]
    rfl
  · unfold epoch_end
    rcases hll : l.log_level with _ | _ | _
    · simp [hll, LogLevel.blt, LogLevel.rank]
    · by_cases hd : l.flush_interval ∣ ectr
      · have hb : (ectr % l.flush_interval == 0) = true := (hmod ectr).mpr hd
        simp [hll, LogLevel.blt, LogLevel.rank, hb, hd,
          _flush_file_open l h rn id hf hr]
      · have hb : ¬((ectr % l.flush_interval == 0) = true) := fun hx => hd ((hmod ectr).mp hx)
        simp [hll, LogLevel.blt, LogLevel.rank, hb, hd]
    · simp [hll, LogLevel.blt, LogLevel.rank, _flush_file_open l h rn id hf hr]
  · unfold batch_end
    rcases hll : l.log_level with _ | _ | _
    · simp [hll, hf]
    · simp [hll, hf]
    · by_cases hd : l.flush_interval ∣ bctr
      · have hb : (bctr % l.flush_interval == 0) = true := (hmod bctr).mpr hd
        simp [hll, hf, hb, hd, _flush_file_open l h rn id hf hr]
      · have hb : ¬((bctr % l.flush_interval == 0) = true) := fun hx => hd ((hmod bctr).mp hx)
        simp [hll, hf, hb, hd]
  · rw [close_open l h rn id hf hr]
    rfl
  · unfold close
    simp

theorem flush_publish_policy_witness :
    (epoch_start { mkFileLogger demoTmpl none with
        file := some { name := "f.txt", content := [] }
        _run_name := some "run1" } 0 demoId).published.length = 1 :=
  (flush_publish_policy _ { name := "f.txt", content := [] } "run1" demoId 0 0
    rfl rfl (by decide) (by decide)).1

end FileLoggerSpec
